import Mathlib

/-!
Verification of the resilient chat request pipeline and the security signal
aggregation of the SystemMultiAgents support/cybersecurity front end.

The definitions below are a shallow embedding of the TypeScript source:

* `app/api/cybersecurity/analyze/route.ts` — `simulateAnalysis`,
  `calculateThreatLevel`, and the `POST` handler (simulation branch);
* `app/api/chat/route.ts` — the `POST` handler, `tryFallbackAPI` and
  `generateLocalResponse`;
* `lib/api-config.ts` — `apiCall` (transport wrapper with bounded retries);
* `app/page.tsx` — `analyzeMessageSecurity` / `handleSendMessage`
  (client-side threat alerts and block gating);
* `app/api/admin-security/route.ts` — the in-memory `systemState`,
  `userActivities` and the `unblock_system` admin action.

Network calls are modelled by oracles describing each transport outcome;
machine time (timestamps, `setTimeout` durations) is carried symbolically;
JavaScript strings are modelled as Lean strings with an ASCII `toLowerCase`.

Numbers: every numeric constant of the embedded code is a decimal with at
most two places (confidences such as `0.85`, weights `3, 2, 2.5, 1`,
thresholds `2.5, 1.5, 0.5`), so all arithmetic is represented exactly in
fixed point — confidences in hundredths (`85` stands for `0.85`), weights
in tenths, threat scores in thousandths (`2550` stands for `2.55`).  At
these values the JavaScript float computations and the exact fixed-point
ones fall on the same side of every comparison in the code.
-/

namespace SupportCyber

/-! ## String utilities

JavaScript `toLowerCase`, `String.prototype.includes` and the literal,
case-insensitive regexes of the source are modelled over `List Char`.
Only ASCII letters are lowered; every keyword in the source is ASCII
lowercase, so the case-insensitive tests agree with the JS ones on
ASCII input.
-/

/-- ASCII lower-casing of one character. -/
def toLowerChar (c : Char) : Char :=
  if 65 ≤ c.toNat ∧ c.toNat ≤ 90 then Char.ofNat (c.toNat + 32) else c

/-- `text.toLowerCase()` as a character list. -/
def lowerStr (s : String) : List Char := s.data.map toLowerChar

/-- `s.includes(p)`: `p` occurs contiguously in `s`. -/
def containsSub (p : List Char) : List Char → Bool
  | [] => p.isEmpty
  | c :: rest => p.isPrefixOf (c :: rest) || containsSub p rest

/-- JavaScript `\s` character class (the members that occur in chat text). -/
def isWs (c : Char) : Bool :=
  c = ' ' || c = '\t' || c = '\n' || c = '\r' || c = Char.ofNat 11 || c = Char.ofNat 12

/-- After one or more whitespace characters, `b` is a prefix. -/
def wsThen (b : List Char) : List Char → Bool
  | [] => false
  | c :: rest => isWs c && (b.isPrefixOf rest || wsThen b rest)

/-- The regex `a\s+b` matches somewhere in the text. -/
def containsSpaced (a b : List Char) : List Char → Bool
  | [] => false
  | c :: rest =>
      (a.isPrefixOf (c :: rest) && wsThen b (List.drop a.length (c :: rest)))
        || containsSpaced a b rest

/-! ## Security signal aggregator (`app/api/cybersecurity/analyze/route.ts`)

`simulateAnalysis` builds a result per requested model; `calculateThreatLevel`
folds them into a verdict.  Confidences are in hundredths (`85` is the
source constant `0.85`); threat scores are in thousandths.  The inert
response metadata (`timestamp`, `text_length`, `models_used`) is omitted:
no embedded code reads it.
-/

/-- `results.vulnerability_classifier` entry of the simulation. -/
structure VulnerabilityResult where
  vulnerability_type : String
  confidence : Nat
deriving DecidableEq

/-- `results.network_analyzer` entry of the simulation. -/
structure NetworkResult where
  traffic_type : String
  confidence : Nat
deriving DecidableEq

/-- `results.intent_classifier` entry of the simulation. -/
structure IntentResult where
  intent : String
  confidence : Nat
deriving DecidableEq

/-- The three optional model results (`SimulationResults` in the source). -/
structure SimResults where
  vulnerability_classifier : Option VulnerabilityResult
  network_analyzer : Option NetworkResult
  intent_classifier : Option IntentResult
deriving DecidableEq

/-- `patterns.xss.some(p => p.test(text))` on lower-cased text. -/
def xssMatch (t : List Char) : Bool :=
  containsSub "<script".data t || containsSub "onerror=".data t ||
  containsSub "<iframe".data t || containsSub "javascript:".data t

/-- `patterns.sql.some(p => p.test(text))`: the regexes
`union\s+select`, `drop\s+table`, `or\s+1=1` (case-insensitive) and the
literal quote-semicolon pair (written with the escape x27 below). -/
def sqlMatch (t : List Char) : Bool :=
  containsSpaced "union".data "select".data t ||
  containsSpaced "drop".data "table".data t ||
  containsSpaced "or".data "1=1".data t ||
  containsSub "\x27;".data t

/-- `patterns.path.some(p => p.test(text))`. -/
def pathMatch (t : List Char) : Bool :=
  containsSub "../".data t || containsSub "%2e%2e".data t ||
  containsSub "etc/passwd".data t

/-- `patterns.malicious.filter(p => p.test(text)).length`. -/
def maliciousCount (t : List Char) : Nat :=
  (["hack", "exploit", "bypass", "attack"].filter
    (fun w => containsSub w.data t)).length

/-- The `vulnerability_classifier` branch of `simulateAnalysis`. -/
def vulnSim (t : List Char) : VulnerabilityResult :=
  if xssMatch t then ⟨"XSS", 85⟩
  else if sqlMatch t then ⟨"SQL_INJECTION", 82⟩
  else if pathMatch t then ⟨"PATH_TRAVERSAL", 80⟩
  else ⟨"SAFE", 95⟩

/-- The `network_analyzer` branch of `simulateAnalysis` (plain `indexOf`
searches on the lower-cased text). -/
def netSim (t : List Char) : NetworkResult :=
  if containsSub "ddos".data t then ⟨"DDOS", 88⟩
  else if containsSub "port scan".data t then ⟨"PORT_SCAN", 85⟩
  else if containsSub "brute force".data t || containsSub "failed login".data t then
    ⟨"BRUTE_FORCE", 83⟩
  else ⟨"NORMAL", 90⟩

/-- The `intent_classifier` branch of `simulateAnalysis`. -/
def intentSim (t : List Char) : IntentResult :=
  if maliciousCount t ≥ 2 then ⟨"Malicious", 75⟩
  else if maliciousCount t = 1 then ⟨"Suspicious", 65⟩
  else ⟨"Legitimate", 80⟩

/-- The default `models` list of the analyze route. -/
def standardModels : List String :=
  ["vulnerability_classifier", "network_analyzer", "intent_classifier"]

/-- The per-model results `simulateAnalysis` assembles before calling
`calculateThreatLevel`. -/
def simulateAnalysisResults (text : String) (models : List String) : SimResults :=
  { vulnerability_classifier :=
      if models.contains "vulnerability_classifier" then
        some (vulnSim (lowerStr text)) else none
    network_analyzer :=
      if models.contains "network_analyzer" then
        some (netSim (lowerStr text)) else none
    intent_classifier :=
      if models.contains "intent_classifier" then
        some (intentSim (lowerStr text)) else none }

/-- `results.vulnerability_classifier?.vulnerability_type !== "SAFE"`:
optional chaining yields `undefined` when the entry is absent, and
`undefined !== "SAFE"` is `true`. -/
def vulnGuard : Option VulnerabilityResult → Bool
  | none => true
  | some v => v.vulnerability_type != "SAFE"

/-- `results.network_analyzer?.traffic_type !== "NORMAL"` (true when absent). -/
def netGuard : Option NetworkResult → Bool
  | none => true
  | some n => n.traffic_type != "NORMAL"

/-- The threshold chain at the end of `calculateThreatLevel`; `s` is the
threat score in thousandths, so `2500, 1500, 500` are the source constants
`2.5, 1.5, 0.5`. -/
def threatLevelOfScore (s : Nat) : String :=
  if s ≥ 2500 then "critical"
  else if s ≥ 1500 then "high"
  else if s ≥ 500 then "medium"
  else if s > 0 then "low"
  else "safe"

/-- The vulnerability addend of the threat score:
`if (guard) threatScore += results.vulnerability_classifier.confidence * 3`.
Reading `.confidence` of an absent entry throws a `TypeError`, modelled as
`Except.error`.  The source weight `3` on a confidence in hundredths is
the factor `30` in thousandths. -/
def vulnContrib (o : Option VulnerabilityResult) : Except String Nat :=
  if vulnGuard o then
    match o with
    | none => Except.error "TypeError: cannot read confidence of undefined"
    | some v => Except.ok (v.confidence * 30)
  else Except.ok 0

/-- The network addend (source weight `2`, factor `20` in thousandths). -/
def netContrib (o : Option NetworkResult) : Except String Nat :=
  if netGuard o then
    match o with
    | none => Except.error "TypeError: cannot read confidence of undefined"
    | some n => Except.ok (n.confidence * 20)
  else Except.ok 0

/-- The intent addend: `=== "Malicious"` weighs `2.5` (factor `25`),
`=== "Suspicious"` weighs `1` (factor `10`); an absent entry fails both
strict equalities, so nothing is read and nothing throws. -/
def intentContrib (o : Option IntentResult) : Nat :=
  match o with
  | some i =>
      if i.intent == "Malicious" then i.confidence * 25
      else if i.intent == "Suspicious" then i.confidence * 10
      else 0
  | none => 0

/-- `calculateThreatLevel(results)`: sum the three addends (a `TypeError`
propagates) and threshold the total. -/
def calculateThreatLevel (r : SimResults) : Except String String :=
  match vulnContrib r.vulnerability_classifier with
  | .error e => .error e
  | .ok vContrib =>
      match netContrib r.network_analyzer with
      | .error e => .error e
      | .ok nContrib =>
          .ok (threatLevelOfScore
            (vContrib + nContrib + intentContrib r.intent_classifier))

instance {α β : Type} [DecidableEq α] [DecidableEq β] : DecidableEq (Except α β)
  | .ok a, .ok b =>
      if h : a = b then isTrue (by rw [h])
      else isFalse (by intro he; cases he; exact h rfl)
  | .ok _, .error _ => isFalse (by intro h; cases h)
  | .error _, .ok _ => isFalse (by intro h; cases h)
  | .error a, .error b =>
      if h : a = b then isTrue (by rw [h])
      else isFalse (by intro he; cases he; exact h rfl)

/-- `simulateAnalysis(text, models)`: the results plus
`overall_threat_level`; a `TypeError` inside `calculateThreatLevel`
propagates. -/
def simulateAnalysis (text : String) (models : List String) :
    Except String (SimResults × String) :=
  let r := simulateAnalysisResults text models
  (calculateThreatLevel r).map (fun lvl => (r, lvl))

/-- Responses of `POST /api/cybersecurity/analyze` (simulation branch:
the Python server is unreachable). -/
inductive AnalyzeResponse
  | ok (results : SimResults) (overall_threat_level : String)
  | badRequest
  | internalError
deriving DecidableEq

/-- The analyze `POST` handler when the Python server is unavailable:
`!text` rejects with 400; a throw inside the simulation reaches the outer
catch, which answers 500. -/
def analyzePOST (text : String) (models : Option (List String)) : AnalyzeResponse :=
  if text = "" then .badRequest
  else
    match simulateAnalysis text (models.getD standardModels) with
    | .ok (r, lvl) => .ok r lvl
    | .error _ => .internalError

/-! ## Local response synthesizer (`generateLocalResponse` in
`app/api/chat/route.ts`)

The keyword tests are `queryLower.includes(...)` checks in source order:
pricing, features, greeting, teamsquare, generic.  The reply templates are
the source strings verbatim.
-/

/-- `queryLower.includes("prix") || queryLower.includes("tarif") ||
queryLower.includes("coût")`. -/
def pricingKw (q : String) : Bool :=
  containsSub "prix".data (lowerStr q) || containsSub "tarif".data (lowerStr q) ||
  containsSub "coût".data (lowerStr q)

/-- `fonctionnalité`, `feature` or `fonction` occurs. -/
def featureKw (q : String) : Bool :=
  containsSub "fonctionnalité".data (lowerStr q) ||
  containsSub "feature".data (lowerStr q) ||
  containsSub "fonction".data (lowerStr q)

/-- `bonjour`, `salut` or `hello` occurs. -/
def greetingKw (q : String) : Bool :=
  containsSub "bonjour".data (lowerStr q) || containsSub "salut".data (lowerStr q) ||
  containsSub "hello".data (lowerStr q)

/-- `teamsquare` or `team square` occurs. -/
def teamsquareKw (q : String) : Bool :=
  containsSub "teamsquare".data (lowerStr q) ||
  containsSub "team square".data (lowerStr q)

/-- The pricing reply template. -/
def pricingTemplate : String :=
  "🏷️ **Tarifs TeamSquare :**\n\n💰 **Starter** : 9€/mois par utilisateur\n   • Jusqu\x27à 10 utilisateurs\n   • 5GB de stockage\n   • Support email\n\n💰 **Professional** : 19€/mois par utilisateur  \n   • Utilisateurs illimités\n   • 100GB de stockage\n   • Support prioritaire\n\n💰 **Enterprise** : Sur devis\n   • Tout du plan Pro\n   • Stockage illimité\n   • Support dédié\n\nQuel plan vous intéresse le plus ?"

/-- The features reply template. -/
def featuresTemplate : String :=
  "🚀 **Fonctionnalités TeamSquare :**\n\n**Collaboration :**\n• Chat en temps réel\n• Partage de fichiers sécurisé\n• Espaces de travail collaboratifs\n\n**Gestion de projet :**\n• Suivi des tâches\n• Planification d\x27équipe\n• Rapports de progression\n\n**Communication :**\n• Visioconférences intégrées\n• Notifications intelligentes\n\nQuelle fonctionnalité vous intéresse le plus ?"

/-- The greeting reply template. -/
def greetingTemplate : String :=
  "Bonjour ! 👋 Je suis l\x27assistant TeamSquare. Comment puis-je vous aider aujourd\x27hui ? Je peux vous renseigner sur nos tarifs, fonctionnalités, ou toute autre question."

/-- The TeamSquare description template. -/
def teamsquareTemplate : String :=
  "**TeamSquare** est une plateforme de collaboration moderne qui aide les équipes à :\n\n🤝 **Collaborer efficacement** avec des outils intégrés\n📊 **Gérer leurs projets** de manière intuitive\n💬 **Communiquer en temps réel** \n🔒 **Sécuriser leurs données** avec un niveau entreprise\n\nNotre mission est de simplifier le travail d\x27équipe et d\x27améliorer la productivité.\n\nQue souhaitez-vous savoir de plus ?"

/-- The generic fallback template (interpolates the query). -/
def genericTemplate (query : String) : String :=
  "Merci pour votre question : \"" ++ query ++ "\"\n\nJe suis l\x27assistant TeamSquare et je peux vous aider avec :\n• 💰 Informations sur nos tarifs\n• 🚀 Présentation des fonctionnalités\n• 📞 Support technique\n• 🏢 Solutions entreprise\n\nEn raison d\x27un problème technique temporaire, je fonctionne en mode simplifié. N\x27hésitez pas à reformuler votre question ou à être plus spécifique."

/-- The reply text chosen by `generateLocalResponse(query, session_id)`. -/
def localResponseText (query : String) : String :=
  if pricingKw query then pricingTemplate
  else if featureKw query then featuresTemplate
  else if greetingKw query then greetingTemplate
  else if teamsquareKw query then teamsquareTemplate
  else genericTemplate query

/-! ## Chat route (`POST /api/chat` and `tryFallbackAPI`)

Each remote call is described by an oracle outcome; the handler is a pure
function of the request and the two outcomes, returning the transports it
attempted (in order, with the local synthesizer as a final event) and the
JSON response.
-/

/-- The body of a 2xx JSON reply from a chat transport: the `content`
field (possibly absent) and the optional `metadata.source` field. -/
structure RemoteBody where
  content : Option String
  metadataSource : Option String
deriving DecidableEq

/-- Outcome of one `fetch` of a chat transport. -/
inductive FetchOutcome
  /-- 2xx and `response.json()` parses. -/
  | ok (body : RemoteBody)
  /-- 2xx but `response.json()` throws. -/
  | okBadJson
  /-- Non-2xx status. -/
  | httpError (status : Nat)
  /-- Network error or timeout abort (`fetch` rejects). -/
  | netError
deriving DecidableEq

/-- One run of the chat `POST` handler: whether `request.json()` parses,
and the outcome of the primary and fallback transports. -/
structure ChatEnv where
  parseOk : Bool
  primaryOutcome : FetchOutcome
  fallbackOutcome : FetchOutcome
deriving DecidableEq

/-- The tiers of the pipeline, as events in attempt order.  `primary` and
`fallback` are transport calls; `localTier` is the local synthesizer. -/
inductive Tier
  | primary
  | fallback
  | localTier
deriving DecidableEq

/-- The JSON response of the chat route: `content` (absent when the
serialized object lacks the field), `metadata.source`, HTTP status. -/
structure ChatResp where
  content : Option String
  source : Option String
  status : Nat
deriving DecidableEq

/-- `generateLocalResponse(query, session_id)` as a route response. -/
def generateLocalResponse (query : String) : ChatResp :=
  { content := some (localResponseText query)
    source := some "local_fallback"
    status := 200 }

/-- `tryFallbackAPI(adaptedBody)`: try the NetworkX endpoint; any
failure (bad status, network error, unparseable body) falls through to the
local generator.  On 2xx the body\x27s `content` is forwarded unchecked and
`metadata.source` is overwritten with `"fallback_api"`. -/
def tryFallbackAPI (env : ChatEnv) (query : String) : List Tier × ChatResp :=
  match env.fallbackOutcome with
  | .ok body =>
      ([Tier.fallback], { content := body.content, source := some "fallback_api", status := 200 })
  | _ => ([Tier.fallback, Tier.localTier], generateLocalResponse query)

/-- Did the primary call deliver a 2xx JSON body carrying a `content`
field?  (`!data || typeof data.content === "undefined"` routes to the
fallback.) -/
def primaryDelivered : FetchOutcome → Bool
  | .ok body => body.content.isSome
  | _ => false

/-- The chat `POST` handler.  Validation rejects an empty message with 400;
a primary failure of any kind goes through `tryFallbackAPI`; a throw while
reading the request body reaches the outer catch (500 with an apology
message).  On primary success the response `source` is
`data.metadata?.source || "agentic_agent"`. -/
def chatPOST (env : ChatEnv) (message : String) : List Tier × ChatResp :=
  if env.parseOk = false then
    ([], { content := some "Désolé, je rencontre un problème technique. Veuillez réessayer dans quelques instants."
           source := some "error_handler", status := 500 })
  else if message = "" then
    ([], { content := some "Message invalide. Veuillez saisir un message valide."
           source := some "validation", status := 400 })
  else
    match env.primaryOutcome with
    | .ok body =>
        if body.content.isSome then
          ([Tier.primary],
           { content := body.content
             source := some (body.metadataSource.getD "agentic_agent")
             status := 200 })
        else
          let (tr, resp) := tryFallbackAPI env message
          (Tier.primary :: tr, resp)
    | _ =>
        let (tr, resp) := tryFallbackAPI env message
        (Tier.primary :: tr, resp)

/-! ## Client-side security handling (`app/page.tsx`)

`analyzeMessageSecurity` posts the text to the analyze route and derives
alert objects from the three model results; `handleSendMessage` first runs
that check, blocks on a critical alert, and only contacts `/api/chat` when
the `isSystemBlocked` flag is unset.
-/

/-- A client-side `SecurityAlert` as built in `analyzeMessageSecurity`
(only the fields the control flow reads). -/
structure PageAlert where
  category : String
  severity : String
deriving DecidableEq

/-- The alert list `analyzeMessageSecurity` derives from an analysis
payload: a `vulnerability` alert when the type is not `SAFE` (critical iff
confidence `> 0.8`), a `network` alert when traffic is not `NORMAL`
(critical iff `DDOS`), an `intent` alert when the intent is `Malicious`
(high iff confidence `> 0.5`, else medium). -/
def pageAlerts (r : SimResults) : List PageAlert :=
  (match r.vulnerability_classifier with
   | some v =>
       if v.vulnerability_type != "SAFE" then
         [⟨"vulnerability", if v.confidence > 80 then "critical" else "high"⟩]
       else []
   | none => []) ++
  (match r.network_analyzer with
   | some n =>
       if n.traffic_type != "NORMAL" then
         [⟨"network", if n.traffic_type == "DDOS" then "critical" else "high"⟩]
       else []
   | none => []) ++
  (match r.intent_classifier with
   | some i =>
       if i.intent == "Malicious" then
         [⟨"intent", if i.confidence > 50 then "high" else "medium"⟩]
       else []
   | none => [])

/-- Outcome of `handleSendMessage`: whether `/api/chat` was fetched, and
the reply object handed to the UI. -/
structure SendOutcome where
  calledChat : Bool
  content : String
  source : String
deriving DecidableEq

/-- Fixed reply when a critical alert blocks the message. -/
def securityBlockMsg : String := "Message bloqué pour des raisons de sécurité."

/-- Fixed reply of the final fall-through (system in secure mode). -/
def securityModeMsg : String :=
  "Le système est actuellement en mode sécurisé. Veuillez patienter."

/-- `handleSendMessage(message)` from `app/page.tsx`.
`analysis` is the payload of the analyze route when its response was 2xx
(`none` models a failed check, which yields no threats); `chatResult` is
the 2xx JSON of `/api/chat` when that fetch succeeds.  A critical alert
returns the fixed block message without contacting `/api/chat`; otherwise
the chat backend is contacted only when `isSystemBlocked` is false, and
every failure falls through to the fixed secure-mode message. -/
def handleSendMessage (isSystemBlocked : Bool) (analysis : Option SimResults)
    (chatResult : Option (String × String)) : SendOutcome :=
  let alerts := match analysis with
    | some r => pageAlerts r
    | none => []
  if alerts.any (fun a => a.severity == "critical") then
    ⟨false, securityBlockMsg, "security_block"⟩
  else if isSystemBlocked = false then
    match chatResult with
    | some (c, s) => ⟨true, c, s⟩
    | none => ⟨true, securityModeMsg, "security_mode"⟩
  else
    ⟨false, securityModeMsg, "security_mode"⟩

/-! ## Transport wrapper (`apiCall` in `lib/api-config.ts`)

One HTTP POST per attempt, `retries + 1` attempts at most, a fixed
`retryDelay` wait between consecutive attempts, and the last observed
error after exhaustion.  The outcome of attempt `i` is given by an oracle;
a timeout abort rejects the fetch and is one of the failure outcomes.
-/

/-- Outcome of one attempt inside `apiCall`: 2xx with parseable JSON, 2xx
with a `json()` throw, a thrown `HTTP <status>` error, or a rejected fetch
(network error / timeout abort), each normalized to an error message. -/
inductive AttemptOutcome
  | ok (body : String)
  | badJson (msg : String)
  | httpError (status : Nat)
  | netError (msg : String)
deriving DecidableEq

/-- Is the attempt a success for `apiCall`? -/
def attemptOk : AttemptOutcome → Bool
  | .ok _ => true
  | _ => false

/-- The normalized `lastError.message` of a failed attempt. -/
def attemptErrMsg : AttemptOutcome → String
  | .ok _ => ""
  | .badJson m => m
  | .httpError status => "HTTP " ++ toString status
  | .netError m => m

/-- Result of `apiCall`: the `ApiResponse` success flag and error message,
plus the number of attempts performed and the backoff delays awaited. -/
structure ApiCallResult where
  success : Bool
  data : Option String
  errorMsg : Option String
  attempts : Nat
  waits : List Nat
deriving DecidableEq

/-- The retry loop of `apiCall`, started at attempt index `idx` with
`remaining` attempts allowed: return on the first 2xx/parseable response;
otherwise record the error, sleep `retryDelay` if an attempt remains, and
retry. -/
def apiCallLoop (retryDelay : Nat) (oracle : Nat → AttemptOutcome) :
    Nat → Nat → ApiCallResult
  | _, 0 => ⟨false, none, none, 0, []⟩
  | idx, n + 1 =>
      match oracle idx with
      | .ok body => ⟨true, some body, none, 1, []⟩
      | o =>
          if n = 0 then ⟨false, none, some (attemptErrMsg o), 1, []⟩
          else
            let r := apiCallLoop retryDelay oracle (idx + 1) n
            ⟨r.success, r.data, r.errorMsg, r.attempts + 1, retryDelay :: r.waits⟩

/-- `apiCall(endpoint, options, config)`: the loop
`for (attempt = 0; attempt <= retries; attempt++)`. -/
def apiCall (retries retryDelay : Nat) (oracle : Nat → AttemptOutcome) :
    ApiCallResult :=
  apiCallLoop retryDelay oracle 0 (retries + 1)

/-! ## Admin security state (`app/api/admin-security/route.ts`)

The module-level `systemState` and `userActivities`, and the
`unblock_system` action of the `POST` handler.  User threat scores are in
hundredths (`80` is the source value `0.8`) and may only be made integers
by the source constants `0.1`/`0.3`, so `Int` is exact.
-/

/-- The module-level `systemState` object (the `models_status` record is
inert for the claims and kept as three status strings). -/
structure SystemState where
  blocked : Bool
  threat_level : String
  active_threats : List String
  last_scan : String
  models_status : String × String × String
deriving DecidableEq

/-- One entry of `userActivities`. -/
structure UserActivity where
  session_id : String
  messages_count : Nat
  last_activity : String
  threat_score : Int
  blocked : Bool
  location : Option String
deriving DecidableEq

/-- The initial `systemState` literal of the source (timestamps carried
symbolically). -/
def initialSystemState : SystemState :=
  { blocked := false
    threat_level := "safe"
    active_threats := []
    last_scan := "startup"
    models_status := ("active", "active", "active") }

/-- The per-user update of the `unblock_system` action: a blocked user is
unblocked and the threat score becomes `Math.max(0.1, score - 0.3)`
(`10` and `30` in hundredths); others are untouched. -/
def unblockUser (u : UserActivity) : UserActivity :=
  if u.blocked then
    { u with blocked := false, threat_score := max 10 (u.threat_score - 30) }
  else u

/-- The `unblock_system` branch of the admin `POST` handler.
`fetchThrows` tells whether the backend notification `fetch` rejected; in
that case the catch answers 500 and no state is mutated (`none`).
Otherwise the system is unblocked, the threat level reset, the active
threats cleared and every blocked user unblocked. -/
def unblockSystemAction (fetchThrows : Bool) (st : SystemState)
    (users : List UserActivity) : Option (SystemState × List UserActivity) :=
  if fetchThrows then none
  else
    some
      ({ st with blocked := false, threat_level := "safe", active_threats := [] },
       users.map unblockUser)

/-! ## Definitions taken from the specification text

For the refinement claims these restate, in the words of the spec, the
weighted-score aggregation (spec §4.5) and the local-response rule order
(spec §4.3, claim order `pricing → features → greeting → generic`).  They
are compared against the definitions embedded from the source above.
-/

/-- Spec §4.5, stated on the same thousandths scale: "vulnerability
weighted ×3, intent-malicious ×2.5, network ×2, intent-suspicious ×1"
applied to the category confidences. -/
def specWeightedScore (r : SimResults) : Nat :=
  (match r.vulnerability_classifier with
   | some v => if v.vulnerability_type != "SAFE" then v.confidence * 30 else 0
   | none => 0) +
  (match r.network_analyzer with
   | some n => if n.traffic_type != "NORMAL" then n.confidence * 20 else 0
   | none => 0) +
  (match r.intent_classifier with
   | some i =>
       if i.intent == "Malicious" then i.confidence * 25
       else if i.intent == "Suspicious" then i.confidence * 10
       else 0
   | none => 0)

/-- Spec §4.5 thresholds (thousandths): `score >= 2.5 → critical`,
`>= 1.5 → high`, `>= 0.5 → medium`, `> 0 → low`, else `safe`. -/
def specThreshold (s : Nat) : String :=
  if s ≥ 2500 then "critical"
  else if s ≥ 1500 then "high"
  else if s ≥ 500 then "medium"
  else if s > 0 then "low"
  else "safe"

/-- The local synthesizer as the claim words it: keyword rules evaluated
in exactly the order pricing → features → greeting → generic fallback. -/
def claimLocalText (q : String) : String :=
  if pricingKw q then pricingTemplate
  else if featureKw q then featuresTemplate
  else if greetingKw q then greetingTemplate
  else genericTemplate q

/-! ## Derived state updates used by the claims -/

/-- `securityCheck.alerts.forEach(alert => handleThreatDetected(alert))`:
each alert is prepended to the `securityAlerts` state, and a critical
alert sets `isSystemBlocked`. -/
def afterThreats (alerts : List PageAlert) (prevAlerts : List PageAlert)
    (prevBlocked : Bool) : List PageAlert × Bool :=
  (alerts.foldl (fun acc a => a :: acc) prevAlerts,
   prevBlocked || alerts.any (fun a => a.severity == "critical"))

/-- The chat route as a function of the ambient admin `systemState`: the
route module neither imports nor reads that state, so the handler is
constant in it.  This constancy is exactly what the definition records. -/
def chatPOSTWithState (st : SystemState) (env : ChatEnv) (message : String) :
    List Tier × ChatResp :=
  chatPOST env message

/-- The initial `userActivities` literal of the source (threat scores in
hundredths, timestamps carried symbolically). -/
def initialUserActivities : List UserActivity :=
  [ ⟨"user_123", 15, "t1", 80, true, some "France"⟩,
    ⟨"user_456", 8, "t2", 90, true, some "Unknown"⟩,
    ⟨"user_789", 3, "t3", 10, false, some "Maroc"⟩ ]

/-! ## Helper lemmas -/

lemma vulnContrib_some (v : VulnerabilityResult) :
    vulnContrib (some v) =
      Except.ok (if v.vulnerability_type != "SAFE" then v.confidence * 30 else 0) := by
  cases h : v.vulnerability_type != "SAFE" <;> simp [vulnContrib, vulnGuard, h]

lemma netContrib_some (n : NetworkResult) :
    netContrib (some n) =
      Except.ok (if n.traffic_type != "NORMAL" then n.confidence * 20 else 0) := by
  cases h : n.traffic_type != "NORMAL" <;> simp [netContrib, netGuard, h]

lemma calculateThreatLevel_some (v : VulnerabilityResult) (n : NetworkResult)
    (io : Option IntentResult) :
    calculateThreatLevel ⟨some v, some n, io⟩ =
      Except.ok (threatLevelOfScore
        ((if v.vulnerability_type != "SAFE" then v.confidence * 30 else 0) +
         (if n.traffic_type != "NORMAL" then n.confidence * 20 else 0) +
         intentContrib io)) := by
  simp [calculateThreatLevel, vulnContrib_some, netContrib_some]

lemma calc_ok_spec (r : SimResults) (lvl : String)
    (h : calculateThreatLevel r = Except.ok lvl) :
    lvl = specThreshold (specWeightedScore r) := by
  obtain ⟨vc, na, ic⟩ := r
  cases vc with
  | none => simp [calculateThreatLevel, vulnContrib, vulnGuard] at h
  | some v =>
    cases na with
    | none => simp [calculateThreatLevel, vulnContrib_some, netContrib, netGuard] at h
    | some n =>
      rw [calculateThreatLevel_some] at h
      injection h with h2
      subst h2
      rfl

/-! ## Claims -/

/-- C2: for every simulated analysis result, the aggregated verdict is the
thresholding of the weighted score (vulnerability ×3 when not SAFE,
network ×2 when not NORMAL, intent ×2.5 when Malicious / ×1 when
Suspicious); thresholds at 2.5 / 1.5 / 0.5 / 0 with the stated boundary
inclusivity (scores in thousandths: 2500, 1500, 500, 10, 0 are the scores
2.5, 1.5, 0.5, 0.01, 0). -/
theorem verdict_is_thresholded_weighted_score (text : String) (models : List String)
    (r : SimResults) (lvl : String)
    (h : simulateAnalysis text models = Except.ok (r, lvl)) :
    lvl = specThreshold (specWeightedScore r) ∧
    threatLevelOfScore 2500 = "critical" ∧ threatLevelOfScore 1500 = "high" ∧
    threatLevelOfScore 500 = "medium" ∧ threatLevelOfScore 10 = "low" ∧
    threatLevelOfScore 0 = "safe" := by
  refine ⟨?_, by decide, by decide, by decide, by decide, by decide⟩
  have h2 : Except.map (fun lvl => (simulateAnalysisResults text models, lvl))
      (calculateThreatLevel (simulateAnalysisResults text models)) =
      Except.ok (r, lvl) := h
  cases hc : calculateThreatLevel (simulateAnalysisResults text models) with
  | error e => rw [hc] at h2; simp [Except.map] at h2
  | ok L =>
    rw [hc] at h2
    simp only [Except.map, Except.ok.injEq, Prod.mk.injEq] at h2
    obtain ⟨h3, h4⟩ := h2
    subst h3
    subst h4
    exact calc_ok_spec _ _ hc

/-- C2 witness: a benign text through the default models gets verdict
`safe`, matching the spec formula. -/
theorem verdict_is_thresholded_weighted_score_witness :
    ("safe" : String) = specThreshold (specWeightedScore
        ⟨some ⟨"SAFE", 95⟩, some ⟨"NORMAL", 90⟩, some ⟨"Legitimate", 80⟩⟩) ∧
    threatLevelOfScore 2500 = "critical" ∧ threatLevelOfScore 1500 = "high" ∧
    threatLevelOfScore 500 = "medium" ∧ threatLevelOfScore 10 = "low" ∧
    threatLevelOfScore 0 = "safe" :=
  verdict_is_thresholded_weighted_score "Bonjour" standardModels
    ⟨some ⟨"SAFE", 95⟩, some ⟨"NORMAL", 90⟩, some ⟨"Legitimate", 80⟩⟩ "safe" (by decide)

/-- C9: `calculateThreatLevel` treats an absent `vulnerability_classifier`
(resp. `network_analyzer`) entry as "not SAFE" (resp. "not NORMAL")
because `undefined !== "SAFE"`, then reads `.confidence` of `undefined`;
a request whose `models` list omits either model therefore throws inside
the simulation and reaches the 500 internal-error branch of the analyze
route. -/
theorem absent_model_reaches_internal_error :
    vulnGuard none = true ∧ netGuard none = true ∧
    calculateThreatLevel ⟨none, some ⟨"NORMAL", 90⟩, some ⟨"Legitimate", 80⟩⟩ =
      Except.error "TypeError: cannot read confidence of undefined" ∧
    analyzePOST "hello" (some ["intent_classifier"]) = .internalError ∧
    analyzePOST "hello" (some ["vulnerability_classifier", "intent_classifier"]) =
      .internalError := by
  decide

/-- C3: when the primary transport fails (non-2xx, network error, timeout,
parse failure or missing `content`), the handler attempts the fallback
endpoint next; it returns the fallback body as soon as that tier responds
2xx (no local synthesis), and only reaches the local synthesizer after the
fallback also fails. -/
theorem primary_failure_tries_fallback_then_local (message : String) (env : ChatEnv)
    (hp : env.parseOk = true) (hm : message ≠ "")
    (hfail : primaryDelivered env.primaryOutcome = false) :
    ((∃ b, env.fallbackOutcome = FetchOutcome.ok b) →
        (chatPOST env message).1 = [Tier.primary, Tier.fallback] ∧
        (chatPOST env message).2.source = some "fallback_api") ∧
    ((∀ b, env.fallbackOutcome ≠ FetchOutcome.ok b) →
        (chatPOST env message).1 = [Tier.primary, Tier.fallback, Tier.localTier] ∧
        (chatPOST env message).2 = generateLocalResponse message) := by
  obtain ⟨p, po, fo⟩ := env
  replace hp : p = true := hp
  replace hfail : primaryDelivered po = false := hfail
  subst hp
  constructor
  · rintro ⟨b, hb⟩
    replace hb : fo = FetchOutcome.ok b := hb
    subst hb
    cases po <;> simp_all [chatPOST, tryFallbackAPI, primaryDelivered, hm]
  · intro hnb
    cases hfo : fo with
    | ok b => exact absurd hfo (hnb b)
    | okBadJson =>
      subst hfo; cases po <;> simp_all [chatPOST, tryFallbackAPI, primaryDelivered, hm]
    | httpError s =>
      subst hfo; cases po <;> simp_all [chatPOST, tryFallbackAPI, primaryDelivered, hm]
    | netError =>
      subst hfo; cases po <;> simp_all [chatPOST, tryFallbackAPI, primaryDelivered, hm]

/-- C3 witness: primary 500, fallback 2xx — the fallback is attempted
right after the primary and its reply is returned without local
synthesis. -/
theorem primary_failure_tries_fallback_then_local_witness :
    ((∃ b, (⟨true, .httpError 500, .ok ⟨some "ok", none⟩⟩ : ChatEnv).fallbackOutcome =
          FetchOutcome.ok b) →
      (chatPOST ⟨true, .httpError 500, .ok ⟨some "ok", none⟩⟩ "bonjour").1 =
          [Tier.primary, Tier.fallback] ∧
      (chatPOST ⟨true, .httpError 500, .ok ⟨some "ok", none⟩⟩ "bonjour").2.source =
          some "fallback_api") ∧
    ((∀ b, (⟨true, .httpError 500, .ok ⟨some "ok", none⟩⟩ : ChatEnv).fallbackOutcome ≠
          FetchOutcome.ok b) →
      (chatPOST ⟨true, .httpError 500, .ok ⟨some "ok", none⟩⟩ "bonjour").1 =
          [Tier.primary, Tier.fallback, Tier.localTier] ∧
      (chatPOST ⟨true, .httpError 500, .ok ⟨some "ok", none⟩⟩ "bonjour").2 =
          generateLocalResponse "bonjour") :=
  primary_failure_tries_fallback_then_local "bonjour"
    ⟨true, .httpError 500, .ok ⟨some "ok", none⟩⟩ rfl (by decide) rfl

/-- C5 counterexample: the primary backend answers 2xx with a body whose
own `metadata.source` is `"fallback_api"`; the route forwards that tag, so
the response claims the fallback tier although only the primary transport
was attempted (and succeeded). -/
theorem source_tag_forwards_backend_claim :
    (chatPOST ⟨true, .ok ⟨some "Voici la réponse.", some "fallback_api"⟩, .netError⟩
        "bonjour").2.source = some "fallback_api" ∧
    (chatPOST ⟨true, .ok ⟨some "Voici la réponse.", some "fallback_api"⟩, .netError⟩
        "bonjour").1 = [Tier.primary] := by
  decide

/-- C5 amended: provided the primary backend does not itself set
`metadata.source`, the returned tag identifies the producing tier exactly:
`agentic_agent` iff the primary delivered the content, `fallback_api` iff
the fallback tier did, `local_fallback` iff the local synthesizer did. -/
theorem source_tag_matches_tier (message : String) (env : ChatEnv)
    (hp : env.parseOk = true) (hm : message ≠ "")
    (hms : ∀ b, env.primaryOutcome = FetchOutcome.ok b → b.metadataSource = none) :
    ((chatPOST env message).2.source = some "agentic_agent" ↔
        primaryDelivered env.primaryOutcome = true) ∧
    ((chatPOST env message).2.source = some "fallback_api" ↔
        (primaryDelivered env.primaryOutcome = false ∧
         ∃ b, env.fallbackOutcome = FetchOutcome.ok b)) ∧
    ((chatPOST env message).2.source = some "local_fallback" ↔
        (primaryDelivered env.primaryOutcome = false ∧
         ∀ b, env.fallbackOutcome ≠ FetchOutcome.ok b)) := by
  obtain ⟨p, po, fo⟩ := env
  replace hp : p = true := hp
  subst hp
  cases po with
  | ok body =>
    have hsrc : body.metadataSource = none := hms body rfl
    cases hbc : body.content with
    | some c =>
      cases fo <;>
        simp_all [chatPOST, tryFallbackAPI, primaryDelivered, generateLocalResponse, hm]
    | none =>
      cases fo <;>
        simp_all [chatPOST, tryFallbackAPI, primaryDelivered, generateLocalResponse, hm]
  | okBadJson =>
    cases fo <;>
      simp_all [chatPOST, tryFallbackAPI, primaryDelivered, generateLocalResponse, hm]
  | httpError s =>
    cases fo <;>
      simp_all [chatPOST, tryFallbackAPI, primaryDelivered, generateLocalResponse, hm]
  | netError =>
    cases fo <;>
      simp_all [chatPOST, tryFallbackAPI, primaryDelivered, generateLocalResponse, hm]

/-- C5 witness: primary delivers content with no source of its own — the
tag is `agentic_agent`, and the fallback/local tags are excluded. -/
theorem source_tag_matches_tier_witness :
    ((chatPOST ⟨true, .ok ⟨some "Bienvenue", none⟩, .netError⟩ "bonjour").2.source =
        some "agentic_agent" ↔
      primaryDelivered (⟨true, .ok ⟨some "Bienvenue", none⟩, .netError⟩ :
          ChatEnv).primaryOutcome = true) ∧
    ((chatPOST ⟨true, .ok ⟨some "Bienvenue", none⟩, .netError⟩ "bonjour").2.source =
        some "fallback_api" ↔
      (primaryDelivered (⟨true, .ok ⟨some "Bienvenue", none⟩, .netError⟩ :
          ChatEnv).primaryOutcome = false ∧
       ∃ b, (⟨true, .ok ⟨some "Bienvenue", none⟩, .netError⟩ : ChatEnv).fallbackOutcome =
          FetchOutcome.ok b)) ∧
    ((chatPOST ⟨true, .ok ⟨some "Bienvenue", none⟩, .netError⟩ "bonjour").2.source =
        some "local_fallback" ↔
      (primaryDelivered (⟨true, .ok ⟨some "Bienvenue", none⟩, .netError⟩ :
          ChatEnv).primaryOutcome = false ∧
       ∀ b, (⟨true, .ok ⟨some "Bienvenue", none⟩, .netError⟩ : ChatEnv).fallbackOutcome ≠
          FetchOutcome.ok b)) :=
  source_tag_matches_tier "bonjour" ⟨true, .ok ⟨some "Bienvenue", none⟩, .netError⟩
    rfl (by decide) (fun b hb => by cases hb; rfl)

/-- C8 counterexample: primary 500, fallback 2xx with a JSON body lacking
`content` — the route forwards the absent field, so the terminal JSON
response carries no displayable content message. -/
theorem bodyless_fallback_yields_contentless_response :
    (chatPOST ⟨true, .httpError 500, .ok ⟨none, none⟩⟩ "bonjour").2.content = none ∧
    (chatPOST ⟨true, .httpError 500, .ok ⟨none, none⟩⟩ "bonjour").2.status = 200 := by
  decide

/-- C8 amended: every path of the chat handler terminates in a JSON
response and no transport error escapes; the response carries a content
message on every path except exactly one — the primary failed and the
fallback answered 2xx with a body lacking `content`. -/
theorem chat_content_total_except_bodyless_fallback (message : String) (env : ChatEnv) :
    (chatPOST env message).2.content = none ↔
      (env.parseOk = true ∧ message ≠ "" ∧
       primaryDelivered env.primaryOutcome = false ∧
       ∃ b, env.fallbackOutcome = FetchOutcome.ok b ∧ b.content = none) := by
  obtain ⟨p, po, fo⟩ := env
  by_cases hm : message = ""
  · cases p <;> simp_all [chatPOST]
  · cases p with
    | false => simp_all [chatPOST]
    | true =>
      cases po with
      | ok body =>
        cases hbc : body.content with
        | some c =>
          cases fo <;>
            simp_all [chatPOST, tryFallbackAPI, primaryDelivered, generateLocalResponse]
        | none =>
          cases fo <;>
            simp_all [chatPOST, tryFallbackAPI, primaryDelivered, generateLocalResponse]
      | okBadJson =>
        cases fo <;>
          simp_all [chatPOST, tryFallbackAPI, primaryDelivered, generateLocalResponse]
      | httpError s =>
        cases fo <;>
          simp_all [chatPOST, tryFallbackAPI, primaryDelivered, generateLocalResponse]
      | netError =>
        cases fo <;>
          simp_all [chatPOST, tryFallbackAPI, primaryDelivered, generateLocalResponse]

/-- C8 witness: the characterization instantiated at the contentless
combination. -/
theorem chat_content_total_except_bodyless_fallback_witness :
    (chatPOST ⟨true, .httpError 500, .ok ⟨none, none⟩⟩ "bonjour").2.content = none :=
  (chat_content_total_except_bodyless_fallback "bonjour"
      ⟨true, .httpError 500, .ok ⟨none, none⟩⟩).mpr
    ⟨rfl, by decide, rfl, ⟨none, none⟩, rfl, rfl⟩

/-- C1 counterexample: with the admin `systemState` blocked, a chat `POST`
still issues the primary transport call and returns the backend reply —
the route neither consults the blocked flag nor returns a blocked
message. -/
theorem chat_route_ignores_system_block :
    ({ initialSystemState with blocked := true } : SystemState).blocked = true ∧
    (chatPOSTWithState { initialSystemState with blocked := true }
        ⟨true, .ok ⟨some "Bienvenue chez TeamSquare", none⟩, .netError⟩ "bonjour").1 =
      [Tier.primary] ∧
    (chatPOSTWithState { initialSystemState with blocked := true }
        ⟨true, .ok ⟨some "Bienvenue chez TeamSquare", none⟩, .netError⟩ "bonjour").2.content =
      some "Bienvenue chez TeamSquare" := by
  decide

/-- C1 amended: block gating lives in the client send handler of
`app/page.tsx`: while its `isSystemBlocked` flag is set,
`handleSendMessage` performs no `/api/chat` call at all (so neither the
primary nor the fallback chat transport is reached) and returns a fixed
message — the secure-mode message, or the security-block message when the
pre-send analysis raised a critical alert. -/
theorem blocked_client_send_skips_chat_transport (analysis : Option SimResults)
    (chatResult : Option (String × String)) :
    (handleSendMessage true analysis chatResult).calledChat = false ∧
    ((handleSendMessage true analysis chatResult).content = securityBlockMsg ∨
     (handleSendMessage true analysis chatResult).content = securityModeMsg) ∧
    ((∀ r, analysis = some r →
        (pageAlerts r).any (fun a => a.severity == "critical") = false) →
      (handleSendMessage true analysis chatResult).content = securityModeMsg) := by
  cases analysis with
  | none => simp [handleSendMessage]
  | some r =>
    cases hany : (pageAlerts r).any (fun a => a.severity == "critical") with
    | true =>
      refine ⟨?_, ?_, ?_⟩
      · simp [handleSendMessage, hany]
      · left; simp [handleSendMessage, hany]
      · intro h
        have := h r rfl
        rw [hany] at this
        cases this
    | false =>
      refine ⟨?_, ?_, ?_⟩
      · simp [handleSendMessage, hany]
      · right; simp [handleSendMessage, hany]
      · intro h
        simp [handleSendMessage, hany]

/-- C1 amended witness: a benign analysis with the flag set — no chat
call, fixed secure-mode message. -/
theorem blocked_client_send_skips_chat_transport_witness :
    (handleSendMessage true
        (some ⟨some ⟨"SAFE", 95⟩, some ⟨"NORMAL", 90⟩, some ⟨"Legitimate", 80⟩⟩)
        none).calledChat = false ∧
    ((handleSendMessage true
        (some ⟨some ⟨"SAFE", 95⟩, some ⟨"NORMAL", 90⟩, some ⟨"Legitimate", 80⟩⟩)
        none).content = securityBlockMsg ∨
     (handleSendMessage true
        (some ⟨some ⟨"SAFE", 95⟩, some ⟨"NORMAL", 90⟩, some ⟨"Legitimate", 80⟩⟩)
        none).content = securityModeMsg) ∧
    ((∀ r, (some ⟨some ⟨"SAFE", 95⟩, some ⟨"NORMAL", 90⟩, some ⟨"Legitimate", 80⟩⟩ :
          Option SimResults) = some r →
        (pageAlerts r).any (fun a => a.severity == "critical") = false) →
      (handleSendMessage true
        (some ⟨some ⟨"SAFE", 95⟩, some ⟨"NORMAL", 90⟩, some ⟨"Legitimate", 80⟩⟩)
        none).content = securityModeMsg) :=
  blocked_client_send_skips_chat_transport
    (some ⟨some ⟨"SAFE", 95⟩, some ⟨"NORMAL", 90⟩, some ⟨"Legitimate", 80⟩⟩) none

set_option maxRecDepth 16000 in
/-- C6 counterexample: `"teamsquare"` matches no pricing, feature or
greeting keyword, so under the claimed rule order
pricing → features → greeting → generic it would receive the generic
fallback; the code instead has a fifth rule and returns the TeamSquare
description. -/
theorem teamsquare_rule_breaks_claimed_order :
    localResponseText "teamsquare" ≠ claimLocalText "teamsquare" ∧
    localResponseText "teamsquare" = teamsquareTemplate ∧
    claimLocalText "teamsquare" = genericTemplate "teamsquare" := by
  refine ⟨?_, rfl, rfl⟩
  decide

/-- C6 amended: the rules are evaluated in the order
pricing → features → greeting → teamsquare → generic fallback, first
match wins; in particular any text with a pricing keyword gets the pricing
template regardless of feature keywords. -/
theorem local_rule_order_with_teamsquare (q : String) :
    (pricingKw q = true → localResponseText q = pricingTemplate) ∧
    (pricingKw q = false → featureKw q = true → localResponseText q = featuresTemplate) ∧
    (pricingKw q = false → featureKw q = false → greetingKw q = true →
        localResponseText q = greetingTemplate) ∧
    (pricingKw q = false → featureKw q = false → greetingKw q = false →
        teamsquareKw q = true → localResponseText q = teamsquareTemplate) ∧
    (pricingKw q = false → featureKw q = false → greetingKw q = false →
        teamsquareKw q = false → localResponseText q = genericTemplate q) := by
  refine ⟨fun h1 => ?_, fun h1 h2 => ?_, fun h1 h2 h3 => ?_,
    fun h1 h2 h3 h4 => ?_, fun h1 h2 h3 h4 => ?_⟩ <;>
  simp [localResponseText, h1]
  all_goals simp [h2]
  all_goals simp [h3]
  all_goals simp [h4]

/-- C6 witness: a text with both a pricing and a feature keyword receives
the pricing template. -/
theorem local_rule_order_with_teamsquare_witness :
    pricingKw "le prix des features" = true ∧
    featureKw "le prix des features" = true ∧
    localResponseText "le prix des features" = pricingTemplate :=
  ⟨by decide, by decide,
   (local_rule_order_with_teamsquare "le prix des features").1 (by decide)⟩

/-- Length of the prepend-fold used by `handleThreatDetected`. -/
lemma foldl_cons_length (l acc : List PageAlert) :
    (l.foldl (fun acc a => a :: acc) acc).length = acc.length + l.length := by
  induction l generalizing acc with
  | nil => simp
  | cons x xs ih => simp [List.foldl, ih]; omega

/-- The four possible vulnerability results of the simulation. -/
lemma vulnSim_cases (t : List Char) :
    vulnSim t = ⟨"XSS", 85⟩ ∨ vulnSim t = ⟨"SQL_INJECTION", 82⟩ ∨
    vulnSim t = ⟨"PATH_TRAVERSAL", 80⟩ ∨ vulnSim t = ⟨"SAFE", 95⟩ := by
  unfold vulnSim
  split_ifs <;> simp

/-- The four possible network results of the simulation. -/
lemma netSim_cases (t : List Char) :
    netSim t = ⟨"DDOS", 88⟩ ∨ netSim t = ⟨"PORT_SCAN", 85⟩ ∨
    netSim t = ⟨"BRUTE_FORCE", 83⟩ ∨ netSim t = ⟨"NORMAL", 90⟩ := by
  unfold netSim
  split_ifs <;> simp

/-- The three possible intent results of the simulation. -/
lemma intentSim_cases (t : List Char) :
    intentSim t = ⟨"Malicious", 75⟩ ∨ intentSim t = ⟨"Suspicious", 65⟩ ∨
    intentSim t = ⟨"Legitimate", 80⟩ := by
  unfold intentSim
  split_ifs <;> simp

/-- C4: whenever the simulated verdict (through the default three models)
is `critical` or `high`, the client-side check derives at least one
`SecurityAlert`, and `handleThreatDetected` adds every derived alert to
the alert list; in particular `"<script>alert(1)</script>"` gets verdict
`critical` and a `vulnerability`-category alert that flips the blocked
flag. -/
theorem critical_or_high_verdict_appends_alert (text : String) (r : SimResults)
    (lvl : String)
    (h : simulateAnalysis text standardModels = Except.ok (r, lvl))
    (hl : lvl = "critical" ∨ lvl = "high") :
    pageAlerts r ≠ [] ∧
    (∀ prev pb, ((afterThreats (pageAlerts r) prev pb).1).length =
        prev.length + (pageAlerts r).length) ∧
    analyzePOST "<script>alert(1)</script>" none =
      .ok ⟨some ⟨"XSS", 85⟩, some ⟨"NORMAL", 90⟩, some ⟨"Legitimate", 80⟩⟩ "critical" ∧
    (pageAlerts ⟨some ⟨"XSS", 85⟩, some ⟨"NORMAL", 90⟩, some ⟨"Legitimate", 80⟩⟩).any
      (fun a => a.category == "vulnerability") = true ∧
    (afterThreats
        (pageAlerts ⟨some ⟨"XSS", 85⟩, some ⟨"NORMAL", 90⟩, some ⟨"Legitimate", 80⟩⟩)
        [] false).2 = true := by
  refine ⟨?_, fun prev pb => foldl_cons_length _ _, by decide, by decide, by decide⟩
  have h2 : Except.map (fun lvl => (simulateAnalysisResults text standardModels, lvl))
      (calculateThreatLevel (simulateAnalysisResults text standardModels)) =
      Except.ok (r, lvl) := h
  have hr0 : simulateAnalysisResults text standardModels =
      ⟨some (vulnSim (lowerStr text)), some (netSim (lowerStr text)),
       some (intentSim (lowerStr text))⟩ := rfl
  rw [hr0] at h2
  rcases vulnSim_cases (lowerStr text) with hv | hv | hv | hv <;>
  rcases netSim_cases (lowerStr text) with hn | hn | hn | hn <;>
  rcases intentSim_cases (lowerStr text) with hi | hi | hi <;>
  · rw [hv, hn, hi] at h2
    injection h2 with h3
    injection h3 with h4 h5
    subst h4
    subst h5
    revert hl
    decide

/-- C4 witness: the scripted XSS input itself. -/
theorem critical_or_high_verdict_appends_alert_witness :
    pageAlerts ⟨some ⟨"XSS", 85⟩, some ⟨"NORMAL", 90⟩, some ⟨"Legitimate", 80⟩⟩ ≠ [] ∧
    (∀ prev pb,
      ((afterThreats
          (pageAlerts ⟨some ⟨"XSS", 85⟩, some ⟨"NORMAL", 90⟩, some ⟨"Legitimate", 80⟩⟩)
          prev pb).1).length =
        prev.length +
          (pageAlerts
            ⟨some ⟨"XSS", 85⟩, some ⟨"NORMAL", 90⟩, some ⟨"Legitimate", 80⟩⟩).length) ∧
    analyzePOST "<script>alert(1)</script>" none =
      .ok ⟨some ⟨"XSS", 85⟩, some ⟨"NORMAL", 90⟩, some ⟨"Legitimate", 80⟩⟩ "critical" ∧
    (pageAlerts ⟨some ⟨"XSS", 85⟩, some ⟨"NORMAL", 90⟩, some ⟨"Legitimate", 80⟩⟩).any
      (fun a => a.category == "vulnerability") = true ∧
    (afterThreats
        (pageAlerts ⟨some ⟨"XSS", 85⟩, some ⟨"NORMAL", 90⟩, some ⟨"Legitimate", 80⟩⟩)
        [] false).2 = true :=
  critical_or_high_verdict_appends_alert "<script>alert(1)</script>"
    ⟨some ⟨"XSS", 85⟩, some ⟨"NORMAL", 90⟩, some ⟨"Legitimate", 80⟩⟩ "critical"
    (by decide) (Or.inl rfl)

/-- One failed attempt inside the retry loop: record the error, and when
attempts remain wait `retryDelay` and continue at the next index. -/
lemma apiCallLoop_fail_step (d : Nat) (oc : Nat → AttemptOutcome) (idx n : Nat)
    (h : attemptOk (oc idx) = false) :
    apiCallLoop d oc idx (n + 1) =
      if n = 0 then ⟨false, none, some (attemptErrMsg (oc idx)), 1, []⟩
      else
        let r := apiCallLoop d oc (idx + 1) n
        ⟨r.success, r.data, r.errorMsg, r.attempts + 1, d :: r.waits⟩ := by
  cases hoc : oc idx with
  | ok b => rw [hoc] at h; simp [attemptOk] at h
  | badJson s => simp [apiCallLoop, hoc]
  | httpError s => simp [apiCallLoop, hoc]
  | netError s => simp [apiCallLoop, hoc]

/-- A successful attempt returns at once. -/
lemma apiCallLoop_ok_step (d : Nat) (oc : Nat → AttemptOutcome) (idx n : Nat)
    (b : String) (h : oc idx = AttemptOutcome.ok b) :
    apiCallLoop d oc idx (n + 1) = ⟨true, some b, none, 1, []⟩ := by
  simp [apiCallLoop, h]

/-- The loop performs at most `n` attempts. -/
lemma apiCallLoop_attempts_le (d : Nat) (oc : Nat → AttemptOutcome) :
    ∀ n idx, (apiCallLoop d oc idx n).attempts ≤ n := by
  intro n
  induction n with
  | zero => intro idx; simp [apiCallLoop]
  | succ m ih =>
    intro idx
    cases hoc : attemptOk (oc idx) with
    | true =>
      cases hc : oc idx with
      | ok b => rw [apiCallLoop_ok_step d oc idx m b hc]; simp
      | badJson s => rw [hc] at hoc; simp [attemptOk] at hoc
      | httpError s => rw [hc] at hoc; simp [attemptOk] at hoc
      | netError s => rw [hc] at hoc; simp [attemptOk] at hoc
    | false =>
      rw [apiCallLoop_fail_step d oc idx m hoc]
      cases m with
      | zero => simp
      | succ m2 =>
        rw [if_neg (Nat.succ_ne_zero m2)]
        have h2 := ih (idx + 1)
        show (apiCallLoop d oc (idx + 1) (m2 + 1)).attempts + 1 ≤ m2 + 1 + 1
        omega

/-- When the first `k` attempts fail and attempt `k` succeeds, the loop
returns that success after `k + 1` attempts with `k` fixed-delay waits. -/
lemma apiCallLoop_success (d : Nat) (oc : Nat → AttemptOutcome) (b : String) :
    ∀ n idx k, k < n → (∀ i, i < k → attemptOk (oc (idx + i)) = false) →
      oc (idx + k) = AttemptOutcome.ok b →
      apiCallLoop d oc idx n = ⟨true, some b, none, k + 1, List.replicate k d⟩ := by
  intro n
  induction n with
  | zero => intro idx k hk; exact absurd hk (Nat.not_lt_zero k)
  | succ m ih =>
    intro idx k hk hf hok
    cases k with
    | zero =>
      have h0 : oc idx = AttemptOutcome.ok b := by simpa using hok
      rw [apiCallLoop_ok_step d oc idx m b h0]
      simp
    | succ k2 =>
      have h0 : attemptOk (oc idx) = false := by
        have := hf 0 (Nat.succ_pos k2)
        simpa using this
      rw [apiCallLoop_fail_step d oc idx m h0]
      have hm : m ≠ 0 := by omega
      rw [if_neg hm]
      have hf2 : ∀ i, i < k2 → attemptOk (oc (idx + 1 + i)) = false := by
        intro i hi
        have := hf (i + 1) (by omega)
        rwa [show idx + (i + 1) = idx + 1 + i by omega] at this
      have hok2 : oc (idx + 1 + k2) = AttemptOutcome.ok b := by
        rwa [show idx + (k2 + 1) = idx + 1 + k2 by omega] at hok
      rw [ih (idx + 1) k2 (by omega) hf2 hok2]
      simp [List.replicate_succ]

/-- When every attempt fails, the loop exhausts all `n` attempts, waits
between consecutive ones, and reports the error of the last attempt. -/
lemma apiCallLoop_allfail (d : Nat) (oc : Nat → AttemptOutcome) :
    ∀ n idx, 0 < n → (∀ i, i < n → attemptOk (oc (idx + i)) = false) →
      apiCallLoop d oc idx n =
        ⟨false, none, some (attemptErrMsg (oc (idx + (n - 1)))), n,
         List.replicate (n - 1) d⟩ := by
  intro n
  induction n with
  | zero => intro idx h0; exact absurd h0 (Nat.lt_irrefl 0)
  | succ m ih =>
    intro idx _ hf
    have h0 : attemptOk (oc idx) = false := by
      have := hf 0 (Nat.succ_pos m)
      simpa using this
    rw [apiCallLoop_fail_step d oc idx m h0]
    cases m with
    | zero => simp
    | succ m2 =>
      rw [if_neg (Nat.succ_ne_zero m2)]
      have hf2 : ∀ i, i < m2 + 1 → attemptOk (oc (idx + 1 + i)) = false := by
        intro i hi
        have := hf (i + 1) (by omega)
        rwa [show idx + (i + 1) = idx + 1 + i by omega] at this
      rw [ih (idx + 1) (Nat.succ_pos m2) hf2]
      have hidx : idx + 1 + (m2 + 1 - 1) = idx + (m2 + 1 + 1 - 1) := by omega
      rw [hidx]
      simp [List.replicate_succ]

/-- C7: the transport wrapper performs at most `retries + 1` POST
attempts; with failures before a success at attempt `k` it retries after a
fixed `retryDelay` wait each time and returns the success; when every
attempt fails (timeout aborts included) it returns the last observed
error only after exhausting the full retry budget. -/
theorem transport_bounded_retry_with_backoff (retries retryDelay : Nat)
    (oracle : Nat → AttemptOutcome) :
    (apiCall retries retryDelay oracle).attempts ≤ retries + 1 ∧
    (∀ k b, k ≤ retries → (∀ i, i < k → attemptOk (oracle i) = false) →
        oracle k = AttemptOutcome.ok b →
        apiCall retries retryDelay oracle =
          ⟨true, some b, none, k + 1, List.replicate k retryDelay⟩) ∧
    ((∀ i, i ≤ retries → attemptOk (oracle i) = false) →
        apiCall retries retryDelay oracle =
          ⟨false, none, some (attemptErrMsg (oracle retries)), retries + 1,
           List.replicate retries retryDelay⟩) := by
  refine ⟨apiCallLoop_attempts_le retryDelay oracle (retries + 1) 0, ?_, ?_⟩
  · intro k b hk hf hok
    have hf0 : ∀ i, i < k → attemptOk (oracle (0 + i)) = false := by
      intro i hi; simpa using hf i hi
    have hok0 : oracle (0 + k) = AttemptOutcome.ok b := by simpa using hok
    exact apiCallLoop_success retryDelay oracle b (retries + 1) 0 k (by omega) hf0 hok0
  · intro hf
    have hf0 : ∀ i, i < retries + 1 → attemptOk (oracle (0 + i)) = false := by
      intro i hi; simpa using hf i (by omega)
    have := apiCallLoop_allfail retryDelay oracle (retries + 1) 0
      (Nat.succ_pos retries) hf0
    simpa using this

/-- C7 witness: two failures (HTTP 500, then a timeout abort) followed by
a success — three attempts, two fixed waits. -/
theorem transport_bounded_retry_with_backoff_witness :
    apiCall 2 1000
        (fun i => if i = 0 then .httpError 500
                  else if i = 1 then .netError "timeout" else .ok "pong") =
      ⟨true, some "pong", none, 3, [1000, 1000]⟩ :=
  (transport_bounded_retry_with_backoff 2 1000 _).2.1 2 "pong" (by omega)
    (by decide) (by decide)

/-- C10: the `unblock_system` admin action (when the backend notification
does not throw) clears the blocked flag, resets the threat level to safe,
empties the active threats, and unblocks every blocked user session while
lowering its threat score to `max(0.1, score - 0.3)` (hundredths: `10`,
`30`) and leaving non-blocked sessions untouched. -/
theorem unblock_resets_state_and_users (st : SystemState) (users : List UserActivity) :
    ∃ st2 users2,
      unblockSystemAction false st users = some (st2, users2) ∧
      st2.blocked = false ∧ st2.threat_level = "safe" ∧ st2.active_threats = [] ∧
      st2.last_scan = st.last_scan ∧ st2.models_status = st.models_status ∧
      users2 = users.map unblockUser ∧
      (∀ u : UserActivity, u.blocked = true →
        unblockUser u =
          { u with blocked := false, threat_score := max 10 (u.threat_score - 30) }) ∧
      (∀ u : UserActivity, u.blocked = false → unblockUser u = u) := by
  refine ⟨_, _, rfl, rfl, rfl, rfl, rfl, rfl, rfl, fun u h => ?_, fun u h => ?_⟩
  · simp [unblockUser, h]
  · simp [unblockUser, h]

/-- C10 witness: the theorem at the initial mock state and user table,
plus the first blocked session concretely: score `0.8 → 0.5`, unblocked. -/
theorem unblock_resets_state_and_users_witness :
    (∃ st2 users2,
      unblockSystemAction false initialSystemState initialUserActivities =
        some (st2, users2) ∧
      st2.blocked = false ∧ st2.threat_level = "safe" ∧ st2.active_threats = [] ∧
      st2.last_scan = initialSystemState.last_scan ∧
      st2.models_status = initialSystemState.models_status ∧
      users2 = initialUserActivities.map unblockUser ∧
      (∀ u : UserActivity, u.blocked = true →
        unblockUser u =
          { u with blocked := false, threat_score := max 10 (u.threat_score - 30) }) ∧
      (∀ u : UserActivity, u.blocked = false → unblockUser u = u)) ∧
    unblockUser ⟨"user_123", 15, "t1", 80, true, some "France"⟩ =
      ⟨"user_123", 15, "t1", 50, false, some "France"⟩ := by
  refine ⟨unblock_resets_state_and_users initialSystemState initialUserActivities, ?_⟩
  obtain ⟨st2, users2, -, -, -, -, -, -, -, h8, -⟩ :=
    unblock_resets_state_and_users initialSystemState initialUserActivities
  exact (h8 ⟨"user_123", 15, "t1", 80, true, some "France"⟩ rfl).trans (by decide)

end SupportCyber
